import Mathlib

/-!
Shallow embedding of `meme_stock_tracker.py` (Meme-Stock-Tracker repository).

Conventions used throughout:

* Python strings are Lean `String`s; `str.lower` is modelled by `pylower`
  (character-wise `Char.toLower`; the program only handles ASCII key names)
  and `str.strip()` by `pystrip` (the ASCII whitespace set, which is all the
  program ever puts at the ends of values).
* The `config.ini` file on disk is modelled by `Option Config`: `none` is a
  missing file, `some c` a well-formed file as written by `configparser`.
  `configparser` lower-cases option (key) names on both reads and writes
  (`optionxform = str.lower`), keeps section names verbatim, serves entries
  of the special `[DEFAULT]` section as fall-through values for every other
  section, and strips surrounding whitespace from option values when a file
  is parsed back (`optval.strip()` in `RawConfigParser._read`); the model
  stores the written value and applies the strip at read time, which is
  observationally equivalent because the strip is idempotent.
  Disk I/O errors are not modelled (writes always reach the disk);
  `add_section('DEFAULT')` raises an uncaught `ValueError`, modelled by
  `SetResult.crash`.
* `tenacity`'s `retry` decorator is modelled by an explicit bounded loop over
  an attempt-indexed backend function `f : Nat → Except E A`, where `f i` is
  the outcome of the i-th call of `client.models.generate_content`.
* The report files living next to the installation are modelled by a partial
  map `String → Option String` from file name to content.
-/

namespace MemeStock

/-- Characters removed by Python `str.strip()` (ASCII subset; the program
    never stores non-ASCII whitespace). -/
def pyIsSpace (c : Char) : Bool :=
  c = ' ' || c = '\t' || c = '\n' || c = '\r' || c = '\x0b' || c = '\x0c'

/-- Python `str.strip()`: drop leading and trailing whitespace. -/
def pystrip (s : String) : String :=
  String.mk (((s.data.dropWhile pyIsSpace).reverse.dropWhile pyIsSpace).reverse)

/-- Python `str.lower` on ASCII, which is `configparser`'s default
    `optionxform` applied to option names on every read and write. -/
def pylower (s : String) : String :=
  String.mk (s.data.map Char.toLower)

/-- Ordered association-list lookup (first binding wins): the shallow model
    of a Python `dict` keyed by strings. -/
def alist_get {α : Type} : List (String × α) → String → Option α
  | [], _ => none
  | (k, v) :: rest, key => if k = key then some v else alist_get rest key

/-- Update-or-append on an association list: the model of
    `d[key] = f(d.get(key))`. -/
def alist_update {α : Type} : List (String × α) → String → (Option α → α) → List (String × α)
  | [], key, f => [(key, f none)]
  | (k, v) :: rest, key, f =>
    if k = key then (k, f (some v)) :: rest else (k, v) :: alist_update rest key f

/-- In-memory state of a parsed `config.ini`: the `[DEFAULT]` section's
    entries plus the ordinary sections (section names verbatim, option keys
    already lower-cased by `optionxform`). -/
structure Config where
  defaults : List (String × String)
  sections : List (String × List (String × String))
deriving DecidableEq

def emptyConfig : Config := ⟨[], []⟩

/-- `ConfigParser.get(sect, key, fallback=fb)`: option names are lower-cased,
    a missing section yields the fallback, and lookups in an existing section
    fall through to the `[DEFAULT]` entries. -/
def cp_get (c : Config) (sect key : String) (fb : Option String) : Option String :=
  if sect = "DEFAULT" then
    match alist_get c.defaults (pylower key) with
    | some v => some v
    | none => fb
  else
    match alist_get c.sections sect with
    | none => fb
    | some entries =>
      match alist_get entries (pylower key) with
      | some v => some v
      | none =>
        match alist_get c.defaults (pylower key) with
        | some v => some v
        | none => fb

/-- The in-memory effect of `add_section`-if-missing followed by
    `ConfigParser.set` (`meme_stock_tracker.py` lines 100-102). -/
def cp_update (c : Config) (sect key value : String) : Config :=
  Config.mk c.defaults
    (alist_update c.sections sect
      (fun old => alist_update (old.getD []) (pylower key) (fun _ => value)))

/-- Result of `set_config_value`: `ok` is a `True` return together with the
    rewritten file; `crash` is the uncaught `ValueError` raised by
    `add_section('DEFAULT')` (only `configparser.Error` and `IOError` are
    caught). Disk writes never fail in the model, so the `False` return of
    the Python function (lines 106-108) does not arise. -/
inductive SetResult where
  | ok (c : Config)
  | crash
deriving DecidableEq

/-- `set_config_value` (lines 84-108): re-read the file (a missing file reads
    as an empty store), create the section if absent, set the key, write the
    whole store back. -/
def set_config_value (disk : Option Config) (sect key value : String) : SetResult :=
  if sect = "DEFAULT" then SetResult.crash
  else SetResult.ok (cp_update (disk.getD emptyConfig) sect key value)

/-- `get_config_value` (lines 61-82): the fallback when the file is missing,
    otherwise a `ConfigParser` lookup. A value read back from the file
    carries the parser's surrounding-whitespace strip. -/
def get_config_value (disk : Option Config) (sect key : String) (fallback : Option String) :
    Option String :=
  match disk with
  | none => fallback
  | some c =>
    match cp_get c sect key none with
    | some v => some (pystrip v)
    | none => fallback

def digitVal (c : Char) : Nat := c.toNat - '0'.toNat

/-- Candidate matches, in regex alternation order, of CPython's `%H` pattern
    `2[0-3]|[0-1]\d|\d` (`_strptime.TimeRE`; `\d` taken as ASCII digits),
    each returning the parsed hour and the unconsumed input. -/
def hourCands (s : List Char) : List (Nat × List Char) :=
  (match s with
   | '2' :: c :: r => if '0' ≤ c ∧ c ≤ '3' then [(20 + digitVal c, r)] else []
   | _ => []) ++
  (match s with
   | a :: b :: r =>
     if ('0' ≤ a ∧ a ≤ '1') ∧ b.isDigit then [(10 * digitVal a + digitVal b, r)] else []
   | _ => []) ++
  (match s with
   | a :: r => if a.isDigit then [(digitVal a, r)] else []
   | _ => [])

/-- Candidate matches of the `%M` pattern `[0-5]\d|\d`. -/
def minuteCands (s : List Char) : List (Nat × List Char) :=
  (match s with
   | a :: b :: r =>
     if ('0' ≤ a ∧ a ≤ '5') ∧ b.isDigit then [(10 * digitVal a + digitVal b, r)] else []
   | _ => []) ++
  (match s with
   | a :: r => if a.isDigit then [(digitVal a, r)] else []
   | _ => [])

/-- First candidate on which the continuation succeeds: the backtracking
    order of Python `re` alternation. -/
def firstMatch {α β : Type} (g : α → Option β) : List α → Option β
  | [] => none
  | a :: rest =>
    match g a with
    | some b => some b
    | none => firstMatch g rest

/-- `re.match` of the compiled `%H:%M` pattern: the first hour alternative
    that is followed by a literal `:` and a minute alternative; returns the
    unconsumed tail of the input. -/
def strptimeHMRaw (s : List Char) : Option (Nat × Nat × List Char) :=
  firstMatch
    (fun hc =>
      match hc.2 with
      | ':' :: r2 => firstMatch (fun mc => some (hc.1, mc.1, mc.2)) (minuteCands r2)
      | _ => none)
    (hourCands s)

/-- `datetime.datetime.strptime(s, '%H:%M')` (line 200): succeeds iff the
    pattern matches and no unconverted data remains. -/
def strptimeHM (s : String) : Option (Nat × Nat) :=
  match strptimeHMRaw s.data with
  | some (h, m, []) => some (h, m)
  | _ => none

/-- `update_schedule_time` (lines 192-210) restricted to its config effect:
    the entered string is stripped, validated through `strptime`, and stored
    under `[Scheduler] TIME_UTC` only on success (the `schedule_task` call
    that follows a successful store never touches the config file). On a
    `ValueError` the function only prints; no write happens. -/
def update_schedule_time (disk : Option Config) (rawInput : String) : Option Config :=
  match strptimeHM (pystrip rawInput) with
  | some _ =>
    match set_config_value disk "Scheduler" "TIME_UTC" (pystrip rawInput) with
    | SetResult.ok c => some c
    | SetResult.crash => disk
  | none => disk

/-- `tenacity.wait_exponential(multiplier=1, min=4, max=10)` after the n-th
    attempt (1-based): `max(min, min(multiplier * 2 ** n, max))`. -/
def waitExp (n : Nat) : Nat := max 4 (min (2 ^ n) 10)

/-- The `tenacity` retry loop driving `_call_gemini_api` (lines 264-285):
    `a` is the index of the current attempt and `fuel` the number of attempts
    `stop_after_attempt` still allows beyond the current one. Returns the
    final outcome, the index of the last attempt made, and the list of
    backoff waits slept between attempts. -/
def attemptFrom {E A : Type} (f : Nat → Except E A) : Nat → Nat → Except E A × Nat × List Nat
  | a, 0 => (f a, a, [])
  | a, fuel + 1 =>
    match f a with
    | Except.ok x => (Except.ok x, a, [])
    | Except.error err =>
      match fuel with
      | 0 => (Except.error err, a, [])
      | m + 1 =>
        let r := attemptFrom f (a + 1) (m + 1)
        (r.1, r.2.1, waitExp a :: r.2.2)

/-- `_call_gemini_api` under `@retry(stop=stop_after_attempt(5),
    wait=wait_exponential(multiplier=1, min=4, max=10))`. -/
def _call_gemini_api {E A : Type} (f : Nat → Except E A) : Except E A × Nat × List Nat :=
  attemptFrom f 1 5

/-- Outcome of one `get_meme_stocks` run (lines 287-340), abstracted over the
    backend error type. -/
inductive GenResult (E : Type) where
  | notConfigured
  | success (text : String)
  | failure (err : E)

/-- The API-key gate of `get_meme_stocks` (lines 299-304): `None` (key never
    stored), the empty string (falsy) and the placeholder sentinel are all
    rejected before any client object is built. -/
def api_key_check (disk : Option Config) : Option String :=
  match get_config_value disk "API" "KEY" none with
  | none => none
  | some s => if s = "" ∨ s = "YOUR_API_KEY_HERE" then none else some s

/-- Output file name of line 324, relative to the installation directory. -/
def reportFileName (today : String) : String := today ++ "_MemeStock.txt"

/-- Lines 325-326: `open(path, "w")` truncates, so after the write the file's
    content is exactly the written text. -/
def write_report (fs : String → Option String) (today text : String) : String → Option String :=
  fun p => if p = reportFileName today then some text else fs p

/-- `get_meme_stocks` (lines 287-340) restricted to its observable effects:
    the key gate, the retried backend call (with its attempt count), and the
    report-file write. The GUI branch only displays text; it changes neither
    the file system nor the config. -/
def run_generation {E : Type} (disk : Option Config) (backend : Nat → Except E String)
    (today : String) (fs : String → Option String) :
    GenResult E × Nat × (String → Option String) :=
  match api_key_check disk with
  | none => (GenResult.notConfigured, 0, fs)
  | some _ =>
    match _call_gemini_api backend with
    | (Except.ok text, n, _) => (GenResult.success text, n, write_report fs today text)
    | (Except.error err, n, _) => (GenResult.failure err, n, fs)

/-- The parsed GUI flag `get_config_value('Settings', 'SHOW_GUI',
    fallback='true').lower() == 'true'` (line 329, and the identical
    expression on lines 370-371). -/
def show_gui (disk : Option Config) : Bool :=
  pylower ((get_config_value disk "Settings" "SHOW_GUI" (some "true")).getD "true") == "true"

/-- `toggle_gui` (lines 368-379): store `'false'` when the flag currently
    parses as enabled, `'true'` otherwise. -/
def toggle_gui (disk : Option Config) : Option Config :=
  match set_config_value disk "Settings" "SHOW_GUI"
      (if show_gui disk then "false" else "true") with
  | SetResult.ok c => some c
  | SetResult.crash => disk

/-- Which branch of the `__main__` block (lines 463-475) runs. -/
inductive MainFlow where
  | automated
  | interactive
deriving DecidableEq

/-- `len(sys.argv) > 1 and sys.argv[1] == 'run'` (line 466); `argv` includes
    the program name at index 0, so a missing `argv[1]` (modelled by the
    empty default) fails the comparison. -/
def main_dispatch (argv : List String) : MainFlow :=
  if argv.getD 1 "" = "run" then MainFlow.automated else MainFlow.interactive

/-- The `__main__` block: the automated branch runs `get_meme_stocks` exactly
    once and exits with status `0` (`sys.exit(0)`, line 472) whatever the
    generation outcome was; the interactive branch (`none` here) enters
    `main_menu` instead. -/
def run_main {E : Type} (argv : List String) (disk : Option Config)
    (backend : Nat → Except E String) (today : String) (fs : String → Option String) :
    Option ((GenResult E × Nat × (String → Option String)) × Nat) :=
  match main_dispatch argv with
  | MainFlow.automated => some (run_generation disk backend today fs, 0)
  | MainFlow.interactive => none

/-- Scanner state of the `str.format` pass: literal mode, just behind an
    opening or a closing brace, or inside a replacement field with the
    field's characters accumulated in reverse. -/
inductive FmtState where
  | lit
  | afterOpen
  | afterClose
  | field (acc : List Char)

/-- `str.format` with the single keyword argument `today_date` (line 311),
    as a one-character state machine over the template. Doubled braces are
    `format`'s escape sequences and produce a single brace; a lone closing
    brace, an unterminated field and an unknown field name raise, modelled
    by `Except.error`. Format specs and conversions are not modelled: the
    program's template uses the bare field, and any other field errors here
    just as `format` raises. -/
def fmtAux (date : List Char) : List Char → FmtState → Except String (List Char)
  | [], FmtState.lit => Except.ok []
  | [], FmtState.afterOpen => Except.error "single opening brace"
  | [], FmtState.afterClose => Except.error "single closing brace"
  | [], FmtState.field _ => Except.error "unterminated replacement field"
  | c :: rest, FmtState.lit =>
    if c = '{' then fmtAux date rest FmtState.afterOpen
    else if c = '}' then fmtAux date rest FmtState.afterClose
    else
      match fmtAux date rest FmtState.lit with
      | Except.ok out => Except.ok (c :: out)
      | Except.error e => Except.error e
  | c :: rest, FmtState.afterOpen =>
    if c = '{' then
      match fmtAux date rest FmtState.lit with
      | Except.ok out => Except.ok ('{' :: out)
      | Except.error e => Except.error e
    else if c = '}' then Except.error "unknown replacement field"
    else fmtAux date rest (FmtState.field [c])
  | c :: rest, FmtState.afterClose =>
    if c = '}' then
      match fmtAux date rest FmtState.lit with
      | Except.ok out => Except.ok ('}' :: out)
      | Except.error e => Except.error e
    else Except.error "single closing brace"
  | c :: rest, FmtState.field acc =>
    if c = '}' then
      if acc.reverse = "today_date".data then
        match fmtAux date rest FmtState.lit with
        | Except.ok out => Except.ok (date ++ out)
        | Except.error e => Except.error e
      else Except.error "unknown replacement field"
    else fmtAux date rest (FmtState.field (c :: acc))

/-- `prompt_template.format(today_date=today_date)` (line 311). -/
def render_prompt (template date : String) : Except String String :=
  match fmtAux date.data template.data FmtState.lit with
  | Except.ok out => Except.ok (String.mk out)
  | Except.error e => Except.error e

/-- Abstract template shape for stating the rendering property: a sequence
    of literal characters and occurrences of the date placeholder. -/
inductive PTok where
  | lit (c : Char)
  | ph

/-- Concrete template text of a token sequence. -/
def flatTok : List PTok → List Char
  | [] => []
  | PTok.lit c :: ts => c :: flatTok ts
  | PTok.ph :: ts => "{today_date}".data ++ flatTok ts

/-- Expected rendering of a token sequence: every placeholder replaced by
    the date, literals untouched. -/
def flatOut (date : List Char) : List PTok → List Char
  | [] => []
  | PTok.lit c :: ts => c :: flatOut date ts
  | PTok.ph :: ts => date ++ flatOut date ts

/-- All literal tokens are brace-free. -/
def litsOk : List PTok → Bool
  | [] => true
  | PTok.lit c :: ts => !(c = '{' || c = '}') && litsOk ts
  | PTok.ph :: ts => litsOk ts

/-- A program run performing a sequence of `set_config_value` operations
    from a given file state; `none` when one of them hit the uncaught
    `ValueError`. -/
def runSets : Option Config → List (String × String × String) → Option (Option Config)
  | disk, [] => some disk
  | disk, (sect, key, value) :: rest =>
    match set_config_value disk sect key value with
    | SetResult.ok c => runSets (some c) rest
    | SetResult.crash => none

/-- Concrete fixtures used by the example instantiations below. -/
def emptyFs : String → Option String := fun _ => none

def c3Backend : Nat → Except Unit String := fun _ => Except.error ()

def c2FailThenOk : Nat → Except Nat Nat := fun i => if i ≤ 4 then Except.error i else Except.ok 42

def c2AllFail : Nat → Except Nat Nat := fun i => Except.error i

def diskWithKey : Option Config := some (cp_update emptyConfig "API" "KEY" "k1")

def b1fix : Nat → Except Unit String := fun _ => Except.ok "r1"

def b2fix : Nat → Except Unit String := fun _ => Except.ok "r2"

def c5Disk : Option Config := some (cp_update emptyConfig "API" "KEY" "abc")

def c6Toks : List PTok := [PTok.lit 'a', PTok.ph, PTok.lit 'b']

theorem alist_get_update_self {α : Type} (l : List (String × α)) (key : String) (f : Option α → α) :
    alist_get (alist_update l key f) key = some (f (alist_get l key)) := by
  induction l with
  | nil => simp [alist_get, alist_update]
  | cons hd t ih =>
    obtain ⟨k, v⟩ := hd
    by_cases hk : k = key
    · subst hk; simp [alist_get, alist_update]
    · simp [alist_get, alist_update, hk, ih]

theorem alist_get_update_ne {α : Type} (l : List (String × α)) (key key' : String)
    (f : Option α → α) (h : key' ≠ key) :
    alist_get (alist_update l key f) key' = alist_get l key' := by
  induction l with
  | nil => simp [alist_get, alist_update, Ne.symm h]
  | cons hd t ih =>
    obtain ⟨k, v⟩ := hd
    by_cases hk : k = key
    · subst hk; simp [alist_get, alist_update, Ne.symm h]
    · by_cases hk' : k = key'
      · subst hk'; simp [alist_get, alist_update, hk]
      · simp [alist_get, alist_update, hk, hk', ih]

theorem cp_get_update_same_key (c : Config) (sect k k' v : String) (fb : Option String)
    (hs : sect ≠ "DEFAULT") (hk : pylower k' = pylower k) :
    cp_get (cp_update c sect k v) sect k' fb = some v := by
  simp only [cp_get, cp_update, if_neg hs]
  rw [alist_get_update_self, hk]
  simp [alist_get_update_self]

theorem cp_get_update_frame (c : Config) (sect k v s' k' : String) (fb : Option String)
    (hs : sect ≠ "DEFAULT") (hdef : c.defaults = [])
    (hdiff : s' ≠ sect ∨ pylower k' ≠ pylower k) :
    cp_get (cp_update c sect k v) s' k' fb = cp_get c s' k' fb := by
  by_cases hS : s' = "DEFAULT"
  · subst hS; simp [cp_get, cp_update]
  · rcases hdiff with hd | hd
    · simp [cp_get, cp_update, hS, alist_get_update_ne _ _ _ _ hd]
    · by_cases hs2 : s' = sect
      · subst hs2
        simp only [cp_get, cp_update, if_neg hS]
        rw [alist_get_update_self]
        cases hold : alist_get c.sections s' with
        | none => simp [hold, hdef, alist_get, alist_update, Ne.symm hd]
        | some es => simp [hold, alist_get_update_ne _ _ _ _ hd]
      · simp [cp_get, cp_update, hS, alist_get_update_ne _ _ _ _ hs2]

theorem cp_get_empty (sect key : String) (fb : Option String) :
    cp_get emptyConfig sect key fb = fb := by
  by_cases h : sect = "DEFAULT" <;> simp [cp_get, emptyConfig, h, alist_get]

theorem set_ok_inv (disk : Option Config) (sect key v : String) (c' : Config)
    (h : set_config_value disk sect key v = SetResult.ok c') :
    sect ≠ "DEFAULT" ∧ c' = cp_update (disk.getD emptyConfig) sect key v := by
  by_cases hs : sect = "DEFAULT"
  · simp [set_config_value, hs] at h
  · simp only [set_config_value, if_neg hs, SetResult.ok.injEq] at h
    exact ⟨hs, h.symm⟩

theorem get_config_value_update_same (c : Config) (sect k k' v : String) (fb : Option String)
    (hs : sect ≠ "DEFAULT") (hk : pylower k' = pylower k) :
    get_config_value (some (cp_update c sect k v)) sect k' fb = some (pystrip v) := by
  simp [get_config_value, cp_get_update_same_key c sect k k' v none hs hk]

theorem get_config_value_update_frame (c : Config) (sect k v s' k' : String) (fb : Option String)
    (hs : sect ≠ "DEFAULT") (hdef : c.defaults = [])
    (hdiff : s' ≠ sect ∨ pylower k' ≠ pylower k) :
    get_config_value (some (cp_update c sect k v)) s' k' fb
      = get_config_value (some c) s' k' fb := by
  simp [get_config_value, cp_get_update_frame c sect k v s' k' none hs hdef hdiff]

theorem get_config_value_set_frame (disk : Option Config) (sect k v s' k' : String)
    (fb : Option String) (hs : sect ≠ "DEFAULT")
    (hdef : (disk.getD emptyConfig).defaults = [])
    (hdiff : s' ≠ sect ∨ pylower k' ≠ pylower k) :
    get_config_value (some (cp_update (disk.getD emptyConfig) sect k v)) s' k' fb
      = get_config_value disk s' k' fb := by
  cases disk with
  | none =>
    simp only [Option.getD_none]
    rw [get_config_value_update_frame emptyConfig sect k v s' k' fb hs rfl hdiff]
    simp [get_config_value, cp_get_empty]
  | some c =>
    simp only [Option.getD_some]
    exact get_config_value_update_frame c sect k v s' k' fb hs (by simpa using hdef) hdiff

/-- C1 (amended): in `update_schedule_time`, the input `"09:25"` is accepted
    and stored under `[Scheduler] TIME_UTC`; the input `"25:70"` is rejected
    and the config file is left untouched; but the unpadded input `"9:25"` is
    also accepted (CPython `strptime`'s `%H` matches one-digit hours) and is
    stored verbatim. -/
theorem spec_c1 (disk : Option Config) (fb : Option String) :
    get_config_value (update_schedule_time disk "09:25") "Scheduler" "TIME_UTC" fb = some "09:25"
    ∧ update_schedule_time disk "25:70" = disk
    ∧ get_config_value (update_schedule_time disk "9:25") "Scheduler" "TIME_UTC" fb
        = some "9:25" := by
  have hS : ("Scheduler" : String) ≠ "DEFAULT" := by decide
  refine ⟨?_, ?_, ?_⟩
  · have h : strptimeHM (pystrip "09:25") = some (9, 25) := by decide
    simp only [update_schedule_time, set_config_value, h, hS, if_false, ite_false]
    rw [get_config_value_update_same _ _ _ _ _ _ hS rfl]
    decide
  · have h : strptimeHM (pystrip "25:70") = none := by decide
    simp only [update_schedule_time, h]
  · have h : strptimeHM (pystrip "9:25") = some (9, 25) := by decide
    simp only [update_schedule_time, set_config_value, h, hS, if_false, ite_false]
    rw [get_config_value_update_same _ _ _ _ _ _ hS rfl]
    decide

/-- C1 counterexample: the claim asserts `"9:25"` is rejected with no config
    write, but the code accepts it and stores it. -/
theorem spec_c1_cex :
    get_config_value (update_schedule_time none "9:25") "Scheduler" "TIME_UTC" none = some "9:25"
    ∧ update_schedule_time none "9:25" ≠ none := by decide

theorem waitExp_bounds (n : Nat) : 4 ≤ waitExp n ∧ waitExp n ≤ 10 :=
  ⟨le_max_left _ _, max_le (by norm_num) (min_le_right _ _)⟩

theorem attemptFrom_err_step {E A : Type} (f : Nat → Except E A) (a m : Nat) (err : E)
    (hf : f a = Except.error err) :
    attemptFrom f a (m + 1 + 1)
      = ((attemptFrom f (a + 1) (m + 1)).1, (attemptFrom f (a + 1) (m + 1)).2.1,
         waitExp a :: (attemptFrom f (a + 1) (m + 1)).2.2) := by
  rw [attemptFrom.eq_2, hf]

theorem attemptFrom_ok {E A : Type} (f : Nat → Except E A) (a : Nat) (x : A)
    (h : f a = Except.ok x) : ∀ fuel, attemptFrom f a fuel = (Except.ok x, a, []) := by
  intro fuel
  cases fuel with
  | zero => simp [attemptFrom, h]
  | succ m => simp [attemptFrom, h]

theorem attemptFrom_attempt_le {E A : Type} (f : Nat → Except E A) :
    ∀ (fuel a : Nat), (attemptFrom f a (fuel + 1)).2.1 ≤ a + fuel := by
  intro fuel
  induction fuel with
  | zero =>
    intro a
    cases hf : f a with
    | ok x => simp [attemptFrom, hf]
    | error err => simp [attemptFrom, hf]
  | succ m ih =>
    intro a
    cases hf : f a with
    | ok x => simp [attemptFrom, hf]
    | error err =>
      rw [attemptFrom_err_step f a m err hf]
      have h2 := ih (a + 1)
      simp only []
      omega

theorem attemptFrom_all_fail {E A : Type} (f : Nat → Except E A) (e : Nat → E) :
    ∀ (fuel a : Nat), (∀ i, a ≤ i → i ≤ a + fuel → f i = Except.error (e i)) →
      ∃ ws, attemptFrom f a (fuel + 1) = (Except.error (e (a + fuel)), a + fuel, ws)
        ∧ ws.length = fuel ∧ ∀ w ∈ ws, 4 ≤ w ∧ w ≤ 10 := by
  intro fuel
  induction fuel with
  | zero =>
    intro a h
    have hf : f a = Except.error (e a) := h a le_rfl (by omega)
    exact ⟨[], by simp [attemptFrom, hf], rfl, by simp⟩
  | succ m ih =>
    intro a h
    have hf : f a = Except.error (e a) := h a le_rfl (by omega)
    obtain ⟨ws, hws, hlen, hb⟩ := ih (a + 1) (fun i h1 h2 => h i (by omega) (by omega))
    have hsum : a + 1 + m = a + (m + 1) := by omega
    rw [hsum] at hws
    refine ⟨waitExp a :: ws, by simp [attemptFrom, hf, hws], by simp [hlen], ?_⟩
    intro w hw
    rcases List.mem_cons.mp hw with h1 | h1
    · subst h1; exact waitExp_bounds a
    · exact hb w h1

theorem attemptFrom_fail_then_ok {E A : Type} (f : Nat → Except E A) (e : Nat → E) (x : A) :
    ∀ (fuel a : Nat), (∀ i, a ≤ i → i < a + fuel → f i = Except.error (e i)) →
      f (a + fuel) = Except.ok x →
      ∃ ws, attemptFrom f a (fuel + 1) = (Except.ok x, a + fuel, ws)
        ∧ ws.length = fuel ∧ ∀ w ∈ ws, 4 ≤ w ∧ w ≤ 10 := by
  intro fuel
  induction fuel with
  | zero =>
    intro a _ hok
    have hf : f a = Except.ok x := by simpa using hok
    exact ⟨[], by simp [attemptFrom, hf], rfl, by simp⟩
  | succ m ih =>
    intro a h hok
    have hf : f a = Except.error (e a) := h a le_rfl (by omega)
    have hsum : a + 1 + m = a + (m + 1) := by omega
    obtain ⟨ws, hws, hlen, hb⟩ := ih (a + 1) (fun i h1 h2 => h i (by omega) (by omega))
      (by rw [hsum]; exact hok)
    rw [hsum] at hws
    refine ⟨waitExp a :: ws, by simp [attemptFrom, hf, hws], by simp [hlen], ?_⟩
    intro w hw
    rcases List.mem_cons.mp hw with h1 | h1
    · subst h1; exact waitExp_bounds a
    · exact hb w h1

/-- C2: the retried API call makes at most 5 attempts for every backend
    behaviour; when the backend fails on attempts 1-4 and succeeds on the
    5th, the success is returned after 4 waits, each in `[4, 10]`; when it
    fails on all 5 attempts, the 5th attempt's failure is surfaced and no 6th
    attempt is made (the returned attempt counter is 5). -/
theorem spec_c2 {E A : Type} (f : Nat → Except E A) (e : Nat → E) (x : A) :
    (_call_gemini_api f).2.1 ≤ 5
    ∧ ((∀ i, 1 ≤ i → i ≤ 4 → f i = Except.error (e i)) → f 5 = Except.ok x →
        ∃ ws, _call_gemini_api f = (Except.ok x, 5, ws)
          ∧ ws.length = 4 ∧ ∀ w ∈ ws, 4 ≤ w ∧ w ≤ 10)
    ∧ ((∀ i, 1 ≤ i → i ≤ 5 → f i = Except.error (e i)) →
        ∃ ws, _call_gemini_api f = (Except.error (e 5), 5, ws) ∧ ws.length = 4) := by
  refine ⟨?_, ?_, ?_⟩
  · have h := attemptFrom_attempt_le f 4 1
    simpa [_call_gemini_api] using h
  · intro h4 hok
    obtain ⟨ws, hws, hlen, hb⟩ :=
      attemptFrom_fail_then_ok f e x 4 1 (fun i h1 h2 => h4 i h1 (by omega)) (by simpa using hok)
    exact ⟨ws, by simpa [_call_gemini_api] using hws, hlen, hb⟩
  · intro h5
    obtain ⟨ws, hws, hlen, _⟩ :=
      attemptFrom_all_fail f e 4 1 (fun i h1 h2 => h5 i h1 (by omega))
    exact ⟨ws, by simpa [_call_gemini_api] using hws, hlen⟩

/-- C2 witness: a backend failing 4 times then succeeding, and a backend
    failing every time, exercise both retry outcomes. -/
theorem spec_c2_witness :
    (_call_gemini_api c2FailThenOk).2.1 ≤ 5
    ∧ (∃ ws, _call_gemini_api c2FailThenOk = (Except.ok 42, 5, ws)
        ∧ ws.length = 4 ∧ ∀ w ∈ ws, 4 ≤ w ∧ w ≤ 10)
    ∧ (∃ ws, _call_gemini_api c2AllFail = (Except.error 5, 5, ws) ∧ ws.length = 4) := by
  obtain ⟨h1, h2, -⟩ := spec_c2 c2FailThenOk (fun i => i) 42
  obtain ⟨-, -, h3⟩ := spec_c2 c2AllFail (fun i => i) 42
  refine ⟨h1, h2 ?_ ?_, h3 ?_⟩
  · intro i hi1 hi2; simp [c2FailThenOk, hi2]
  · simp [c2FailThenOk]
  · intro i hi1 hi2; simp [c2AllFail]

/-- C3: an absent, empty, or placeholder-sentinel API key makes report
    generation fail with the not-configured outcome before any backend call
    is attempted; the backend-call counter stays zero. -/
theorem spec_c3 {E : Type} (disk : Option Config) (backend : Nat → Except E String)
    (today : String) (fs : String → Option String)
    (h : get_config_value disk "API" "KEY" none = none
       ∨ get_config_value disk "API" "KEY" none = some ""
       ∨ get_config_value disk "API" "KEY" none = some "YOUR_API_KEY_HERE") :
    run_generation disk backend today fs = (GenResult.notConfigured, 0, fs) := by
  have hk : api_key_check disk = none := by
    unfold api_key_check
    rcases h with h | h | h <;> rw [h] <;> simp
  simp [run_generation, hk]

/-- C3 witness: the missing config file is one state with an absent key. -/
theorem spec_c3_witness :
    get_config_value none "API" "KEY" none = none
    ∧ run_generation none c3Backend "2025-01-02" emptyFs
        = (GenResult.notConfigured, 0, emptyFs) :=
  ⟨rfl, spec_c3 none c3Backend "2025-01-02" emptyFs (Or.inl rfl)⟩

/-- C4 (amended): after a successful `set(sect, key, v)`, an immediate
    `get(sect, key, fb)` returns `v` with its surrounding whitespace
    stripped (the config parser strips values when reading the file back);
    this equals `v` exactly for every `v` without leading or trailing
    whitespace. -/
theorem spec_c4 (disk : Option Config) (sect k v : String) (fb : Option String)
    (hs : sect ≠ "DEFAULT") :
    ∃ c', set_config_value disk sect k v = SetResult.ok c'
      ∧ get_config_value (some c') sect k fb = some (pystrip v)
      ∧ (pystrip v = v → get_config_value (some c') sect k fb = some v) := by
  refine ⟨cp_update (disk.getD emptyConfig) sect k v, by simp [set_config_value, hs], ?_, ?_⟩
  · exact get_config_value_update_same _ _ _ _ _ _ hs rfl
  · intro hv
    rw [get_config_value_update_same _ _ _ _ _ _ hs rfl, hv]

/-- C4 counterexample: `set` succeeds on the printable value `" x"` but the
    following `get` returns `"x"`, not `" x"`. -/
theorem spec_c4_cex :
    (match set_config_value none "API" "KEY" " x" with
     | SetResult.ok c => get_config_value (some c) "API" "KEY" none
     | SetResult.crash => none) = some "x"
    ∧ some "x" ≠ some (" x" : String) := by decide

/-- C4 witness. -/
theorem spec_c4_witness :
    ("API" : String) ≠ "DEFAULT"
    ∧ ∃ c', set_config_value none "API" "KEY" "abc" = SetResult.ok c'
        ∧ get_config_value (some c') "API" "KEY" none = some (pystrip "abc")
        ∧ (pystrip "abc" = "abc" → get_config_value (some c') "API" "KEY" none = some "abc") :=
  ⟨by decide, spec_c4 none "API" "KEY" "abc" none (by decide)⟩

theorem runSets_get_unchanged (s k : String) (ops : List (String × String × String)) :
    ∀ (disk0 disk1 : Option Config),
      runSets disk0 ops = some disk1 →
      (∀ o ∈ ops, ¬(o.1 = s ∧ pylower o.2.1 = pylower k)) →
      (disk0.getD emptyConfig).defaults = [] →
      (∀ fb, get_config_value disk0 s k fb = fb) →
      ∀ fb, get_config_value disk1 s k fb = fb := by
  induction ops with
  | nil =>
    intro d0 d1 hrun _ _ hg fb
    simp only [runSets, Option.some.injEq] at hrun
    subst hrun
    exact hg fb
  | cons op rest ih =>
    obtain ⟨s0, k0, v0⟩ := op
    intro d0 d1 hrun hops hdef hg fb
    simp only [runSets] at hrun
    cases hset : set_config_value d0 s0 k0 v0 with
    | crash => rw [hset] at hrun; simp at hrun
    | ok c =>
      rw [hset] at hrun
      obtain ⟨hs0, hc⟩ := set_ok_inv d0 s0 k0 v0 c hset
      subst hc
      have hop := hops (s0, k0, v0) (by simp)
      have hdiff : s ≠ s0 ∨ pylower k ≠ pylower k0 := by
        by_cases h1 : s0 = s
        · right; intro h2; exact hop ⟨h1, h2.symm⟩
        · left; exact fun hss => h1 hss.symm
      refine ih (some (cp_update (d0.getD emptyConfig) s0 k0 v0)) d1 hrun
        (fun o ho => hops o (List.mem_cons_of_mem _ ho)) ?_ ?_ fb
      · simpa [cp_update] using hdef
      · intro fb0
        rw [get_config_value_set_frame d0 s0 k0 v0 s k fb0 hs0 hdef hdiff]
        exact hg fb0

/-- C5: for a missing config file `get` returns the supplied fallback, and
    for any file state reachable by set operations none of which wrote the
    queried section/key (up to the parser's key lower-casing), `get` still
    returns exactly the fallback. -/
theorem spec_c5 :
    (∀ (s k : String) (fb : Option String), get_config_value none s k fb = fb)
    ∧ (∀ (ops : List (String × String × String)) (disk : Option Config) (s k : String)
        (fb : Option String),
        runSets none ops = some disk →
        (∀ o ∈ ops, ¬(o.1 = s ∧ pylower o.2.1 = pylower k)) →
        get_config_value disk s k fb = fb) := by
  constructor
  · intro s k fb; rfl
  · intro ops disk s k fb hrun hops
    exact runSets_get_unchanged s k ops none disk hrun hops rfl (fun _ => rfl) fb

/-- C5 witness: the empty-string-free fallback round trip on a never-written
    key, both on a missing file and after an unrelated write. -/
theorem spec_c5_witness :
    get_config_value none "API" "KEY" (some "fall") = some "fall"
    ∧ get_config_value c5Disk "Scheduler" "TIME_UTC" (some "13:25") = some "13:25" := by
  constructor
  · exact spec_c5.1 "API" "KEY" (some "fall")
  · exact spec_c5.2 [("API", "KEY", "abc")] c5Disk "Scheduler" "TIME_UTC" (some "13:25")
      (by decide) (by decide)

theorem fmtAux_lits (date : List Char) :
    ∀ l : List Char, (∀ c ∈ l, ¬(c = '{' ∨ c = '}')) →
      fmtAux date l FmtState.lit = Except.ok l := by
  intro l
  induction l with
  | nil => intro _; rfl
  | cons c rest ih =>
    intro h
    have hc := h c (List.mem_cons_self _ _)
    have hc1 : ¬(c = '{') := fun hh => hc (Or.inl hh)
    have hc2 : ¬(c = '}') := fun hh => hc (Or.inr hh)
    simp [fmtAux, hc1, hc2, ih (fun d hd => h d (List.mem_cons_of_mem _ hd))]

theorem fmtAux_field_consume (date : List Char) :
    ∀ (name acc tail : List Char), (∀ c ∈ name, c ≠ '}') →
      fmtAux date (name ++ '}' :: tail) (FmtState.field acc)
        = if (List.reverse acc ++ name) = "today_date".data then
            match fmtAux date tail FmtState.lit with
            | Except.ok out => Except.ok (date ++ out)
            | Except.error e => Except.error e
          else Except.error "unknown replacement field" := by
  intro name
  induction name with
  | nil =>
    intro acc tail _
    simp [fmtAux]
  | cons c name ih =>
    intro acc tail h
    have hc : ¬(c = '}') := h c (List.mem_cons_self _ _)
    simp only [List.cons_append]
    rw [show fmtAux date (c :: (name ++ '}' :: tail)) (FmtState.field acc)
          = fmtAux date (name ++ '}' :: tail) (FmtState.field (c :: acc)) from by
        simp [fmtAux, hc]]
    rw [ih (c :: acc) tail (fun d hd => h d (List.mem_cons_of_mem _ hd))]
    have hl : List.reverse (c :: acc) ++ name = List.reverse acc ++ (c :: name) := by
      simp
    rw [hl]

theorem fmtAux_ph (date tail : List Char) :
    fmtAux date ("{today_date}".data ++ tail) FmtState.lit
      = match fmtAux date tail FmtState.lit with
        | Except.ok out => Except.ok (date ++ out)
        | Except.error e => Except.error e := by
  have hd : "{today_date}".data ++ tail
      = '{' :: 't' :: ("oday_date".data ++ '}' :: tail) := rfl
  rw [hd]
  have e1 : fmtAux date ('{' :: 't' :: ("oday_date".data ++ '}' :: tail)) FmtState.lit
      = fmtAux date ('t' :: ("oday_date".data ++ '}' :: tail)) FmtState.afterOpen := by
    simp [fmtAux]
  have e2 : fmtAux date ('t' :: ("oday_date".data ++ '}' :: tail)) FmtState.afterOpen
      = fmtAux date ("oday_date".data ++ '}' :: tail) (FmtState.field ['t']) := by
    simp only [fmtAux]
    rw [if_neg (by decide), if_neg (by decide)]
  rw [e1, e2, fmtAux_field_consume date ("oday_date".data) ['t'] tail (by decide)]
  rw [if_pos (by decide)]

theorem fmtAux_flat (date : List Char) :
    ∀ ts : List PTok, litsOk ts = true →
      fmtAux date (flatTok ts) FmtState.lit = Except.ok (flatOut date ts) := by
  intro ts
  induction ts with
  | nil => intro _; rfl
  | cons t ts ih =>
    intro h
    cases t with
    | lit c =>
      have h' := h
      simp only [litsOk, Bool.and_eq_true, Bool.not_eq_true', Bool.or_eq_false_iff,
        decide_eq_false_iff_not] at h'
      obtain ⟨⟨hc1, hc2⟩, hts⟩ := h'
      simp only [flatTok, flatOut]
      simp [fmtAux, hc1, hc2, ih hts]
    | ph =>
      have hts : litsOk ts = true := by simpa [litsOk] using h
      simp only [flatTok, flatOut]
      rw [fmtAux_ph, ih hts]

/-- C6 (amended): rendering a template made of brace-free literal characters
    and occurrences of the date placeholder substitutes the date for every
    placeholder occurrence and leaves the literals byte-identical, and a
    template containing no brace at all is returned completely unchanged;
    templates containing stray braces are instead subject to `str.format`'s
    escape and error rules, so they are not returned unchanged. -/
theorem spec_c6 (ts : List PTok) (date template : String)
    (h1 : litsOk ts = true)
    (h2 : template.data.all (fun c => !(c = '{' || c = '}')) = true) :
    fmtAux date.data (flatTok ts) FmtState.lit = Except.ok (flatOut date.data ts)
    ∧ render_prompt template date = Except.ok template := by
  constructor
  · exact fmtAux_flat date.data ts h1
  · have hl : ∀ c ∈ template.data, ¬(c = '{' ∨ c = '}') := by
      intro c hc
      have h3 := List.all_eq_true.mp h2 c hc
      simp only [Bool.not_eq_true', Bool.or_eq_false_iff, decide_eq_false_iff_not] at h3
      exact fun hor => hor.elim h3.1 h3.2
    unfold render_prompt
    rw [fmtAux_lits date.data template.data hl]

/-- C6 counterexample: the template `"{{"` contains no occurrence of the
    placeholder, yet rendering returns `"{"`, not the template unchanged. -/
theorem spec_c6_cex :
    render_prompt (String.mk ['{', '{']) "2025-01-02" = Except.ok (String.mk ['{'])
    ∧ String.mk ['{'] ≠ String.mk ['{', '{'] :=
  ⟨rfl, by decide⟩

/-- C6 witness: a literal-placeholder-literal template and a brace-free
    template. -/
theorem spec_c6_witness :
    fmtAux ("2025-01-02".data) (flatTok c6Toks) FmtState.lit
      = Except.ok (flatOut ("2025-01-02".data) c6Toks)
    ∧ render_prompt "abc" "2025-01-02" = Except.ok "abc" := by
  have h := spec_c6 c6Toks "2025-01-02" "abc" (by decide) (by decide)
  exact ⟨h.1, h.2⟩

/-- C7 (amended): the invocation `[program, "run"]` skips the menu, runs the
    report generator exactly once and exits with status 0 whatever the
    generation outcome; no arguments, or a first argument different from
    `"run"`, enters the interactive menu; but extra arguments after a first
    `"run"` still run non-interactively (only `argv[1]` is inspected). -/
theorem spec_c7 {E : Type} (p x : String) (hx : x ≠ "run") (disk : Option Config)
    (backend : Nat → Except E String) (today : String) (fs : String → Option String) :
    run_main [p, "run"] disk backend today fs = some (run_generation disk backend today fs, 0)
    ∧ run_main [p] disk backend today fs = none
    ∧ run_main [p, x] disk backend today fs = none := by
  refine ⟨?_, ?_, ?_⟩
  · simp [run_main, main_dispatch]
  · simp [run_main, main_dispatch]
  · simp [run_main, main_dispatch, hx]

/-- C7 counterexample: with arguments `["run", "extra"]` after the program
    name, the claim predicts the interactive menu, but the code runs
    non-interactively. -/
theorem spec_c7_cex :
    main_dispatch ["prog", "run", "extra"] = MainFlow.automated
    ∧ MainFlow.automated ≠ MainFlow.interactive := by decide

/-- C7 witness. -/
theorem spec_c7_witness :
    run_main ["prog", "run"] none c3Backend "2025-01-02" emptyFs
      = some (run_generation none c3Backend "2025-01-02" emptyFs, 0)
    ∧ run_main ["prog"] none c3Backend "2025-01-02" emptyFs = none
    ∧ run_main ["prog", "stats"] none c3Backend "2025-01-02" emptyFs = none :=
  spec_c7 "prog" "stats" (by decide) none c3Backend "2025-01-02" emptyFs

theorem string_data_append (a b : String) : (a ++ b).data = a.data ++ b.data := by
  cases a; cases b; rfl

/-- C8: two successful report generations on the same date overwrite the same
    day file; afterwards its content is exactly the second response text, and
    never the concatenation of the two responses (when the first is
    non-empty). -/
theorem spec_c8 {E : Type} (disk : Option Config) (key today t1 t2 : String)
    (fs : String → Option String) (b1 b2 : Nat → Except E String)
    (hk : api_key_check disk = some key)
    (h1 : ∀ i, b1 i = Except.ok t1) (h2 : ∀ i, b2 i = Except.ok t2) :
    (run_generation disk b2 today (run_generation disk b1 today fs).2.2).2.2
        (reportFileName today) = some t2
    ∧ (t1 ≠ "" →
        (run_generation disk b2 today (run_generation disk b1 today fs).2.2).2.2
            (reportFileName today) ≠ some (t1 ++ t2)) := by
  have hcall1 : _call_gemini_api b1 = (Except.ok t1, 1, []) := by
    unfold _call_gemini_api
    exact attemptFrom_ok b1 1 t1 (h1 1) 5
  have hcall2 : _call_gemini_api b2 = (Except.ok t2, 1, []) := by
    unfold _call_gemini_api
    exact attemptFrom_ok b2 1 t2 (h2 1) 5
  have e1 : run_generation disk b1 today fs
      = (GenResult.success t1, 1, write_report fs today t1) := by
    simp [run_generation, hk, hcall1]
  have e2 : ∀ g, run_generation disk b2 today g
      = (GenResult.success t2, 1, write_report g today t2) := by
    intro g
    simp [run_generation, hk, hcall2]
  have hval : (run_generation disk b2 today (run_generation disk b1 today fs).2.2).2.2
      (reportFileName today) = some t2 := by
    rw [e1]
    simp [e2, write_report]
  refine ⟨hval, ?_⟩
  intro ht heq
  rw [hval] at heq
  have hinj : t2 = t1 ++ t2 := Option.some.inj heq
  have hdata := congrArg String.data hinj
  rw [string_data_append] at hdata
  have hlen := congrArg List.length hdata
  rw [List.length_append] at hlen
  have hnil : t1.data = [] := List.eq_nil_of_length_eq_zero (by omega)
  apply ht
  cases t1 with
  | mk d =>
    have hd : d = [] := hnil
    subst hd
    rfl

/-- C8 witness: two constant-success backends writing `"r1"` then `"r2"` on
    the same date. -/
theorem spec_c8_witness :
    (run_generation diskWithKey b2fix "2025-01-02"
        (run_generation diskWithKey b1fix "2025-01-02" emptyFs).2.2).2.2
        (reportFileName "2025-01-02") = some "r2"
    ∧ (run_generation diskWithKey b2fix "2025-01-02"
        (run_generation diskWithKey b1fix "2025-01-02" emptyFs).2.2).2.2
        (reportFileName "2025-01-02") ≠ some ("r1" ++ "r2") := by
  have h := spec_c8 diskWithKey "k1" "2025-01-02" "r1" "r2" emptyFs b1fix b2fix
    (by decide) (fun _ => rfl) (fun _ => rfl)
  exact ⟨h.1, h.2 (by decide)⟩

/-- C9 (amended): restricted to config states without `[DEFAULT]` entries
    (the program can never create any), a successful `set(s, k, v)` leaves
    the value observed for every pair that differs in section or in
    lower-cased key unchanged, and removes no existing entry; pairs that
    agree after the parser's key lower-casing are the same stored entry, so
    a case-variant key pair is overwritten together with the written one. -/
theorem spec_c9 (disk : Option Config) (s k v : String) (c' : Config)
    (hset : set_config_value disk s k v = SetResult.ok c')
    (hdef : (disk.getD emptyConfig).defaults = [])
    (s' k' : String) (fb : Option String) :
    ((s' ≠ s ∨ pylower k' ≠ pylower k) →
        get_config_value (some c') s' k' fb = get_config_value disk s' k' fb)
    ∧ (∀ w, get_config_value disk s' k' none = some w →
        ∃ u, get_config_value (some c') s' k' none = some u) := by
  obtain ⟨hs, hc⟩ := set_ok_inv disk s k v c' hset
  subst hc
  constructor
  · intro hdiff
    exact get_config_value_set_frame disk s k v s' k' fb hs hdef hdiff
  · intro w hw
    by_cases hsame : s' = s ∧ pylower k' = pylower k
    · obtain ⟨hss, hkk⟩ := hsame
      subst hss
      exact ⟨pystrip v, get_config_value_update_same _ _ _ _ _ _ hs hkk⟩
    · have hdiff : s' ≠ s ∨ pylower k' ≠ pylower k := by
        by_cases hss : s' = s
        · exact Or.inr fun hkk => hsame ⟨hss, hkk⟩
        · exact Or.inl hss
      rw [get_config_value_set_frame disk s k v s' k' none hs hdef hdiff]
      exact ⟨w, hw⟩

/-- C9 counterexample: writing `SHOW_GUI` changes the value observed at the
    different pair `("Settings", "show_gui")`, because the parser lower-cases
    keys on both reads and writes. -/
theorem spec_c9_cex :
    get_config_value none "Settings" "show_gui" none = none
    ∧ (match set_config_value none "Settings" "SHOW_GUI" "x" with
       | SetResult.ok c => get_config_value (some c) "Settings" "show_gui" none
       | SetResult.crash => none) = some "x"
    ∧ ("Settings", "show_gui") ≠ (("Settings", "SHOW_GUI") : String × String) := by decide

/-- C9 witness. -/
theorem spec_c9_witness :
    get_config_value (some (cp_update emptyConfig "API" "KEY" "v1")) "Other" "key2" none
      = get_config_value none "Other" "key2" none :=
  (spec_c9 none "API" "KEY" "v1" (cp_update emptyConfig "API" "KEY" "v1") (by decide) rfl
    "Other" "key2" none).1 (Or.inl (by decide))

theorem toggle_gui_stored (disk : Option Config) :
    toggle_gui disk
      = some (cp_update (disk.getD emptyConfig) "Settings" "SHOW_GUI"
          (if show_gui disk then "false" else "true")) := by
  have hS : ("Settings" : String) ≠ "DEFAULT" := by decide
  simp [toggle_gui, set_config_value, hS]

theorem get_after_toggle (disk : Option Config) (fb : Option String) :
    get_config_value (toggle_gui disk) "Settings" "SHOW_GUI" fb
      = some (if show_gui disk then "false" else "true") := by
  rw [toggle_gui_stored, get_config_value_update_same _ _ _ _ _ _ (by decide) rfl]
  cases show_gui disk <;> decide

theorem show_gui_toggle (disk : Option Config) :
    show_gui (toggle_gui disk) = !(show_gui disk) := by
  have h := get_after_toggle disk (some "true")
  cases hsg : show_gui disk <;>
    (rw [hsg] at h; unfold show_gui; rw [h]; decide)

/-- C10: after a toggle the stored `[Settings] SHOW_GUI` value is exactly
    `'true'` or `'false'` whatever was stored before, and two successive
    toggles restore the original parsed boolean value of the flag. -/
theorem spec_c10 (disk : Option Config) :
    (get_config_value (toggle_gui disk) "Settings" "SHOW_GUI" none = some "true"
      ∨ get_config_value (toggle_gui disk) "Settings" "SHOW_GUI" none = some "false")
    ∧ show_gui (toggle_gui (toggle_gui disk)) = show_gui disk := by
  constructor
  · have h := get_after_toggle disk none
    cases hsg : show_gui disk
    · left; rw [hsg] at h; rw [h]; decide
    · right; rw [hsg] at h; rw [h]; decide
  · rw [show_gui_toggle, show_gui_toggle, Bool.not_not]

end MemeStock
